import Mathlib

/-!
Verification of the SystemTransport repository (src/system_transport.py).

Embedding conventions: Python floats are modelled as exact rationals
(all constants of the program, 0.5 and 0.7, are finite decimals and all
arithmetic in the claims is exact); Python integers are modelled as Int.
Each mutating method becomes a function from the receiver state to the
new state, paired with the returned value when the method returns one.
-/

/-- Embeds class Passenger: fields name, age, distance_km and the
mutable final_fare, which __init__ sets to 0.0. -/
structure Passenger where
  name : String
  age : Int
  distance_km : Rat
  final_fare : Rat
deriving DecidableEq, Repr

/-- Embeds Passenger.__init__(name, age, distance_km): final_fare starts at 0.0. -/
def Passenger.init (name : String) (age : Int) (distance_km : Rat) : Passenger :=
  { name := name, age := age, distance_km := distance_km, final_fare := 0 }

/-- Embeds Passenger.compute_fare(base_rate_per_km): computes
base_fare = base_rate_per_km * distance_km, applies the age-band
multiplier (age < 12 gives 0.5, age > 60 gives 0.7, otherwise 1),
stores the result in final_fare and returns it.  The result is the
updated passenger paired with the returned fare. -/
def Passenger.compute_fare (p : Passenger) (base_rate_per_km : Rat) : Passenger × Rat :=
  let base_fare := base_rate_per_km * p.distance_km
  if p.age < 12 then
    ({ p with final_fare := base_fare * 0.5 }, base_fare * 0.5)
  else if p.age > 60 then
    ({ p with final_fare := base_fare * 0.7 }, base_fare * 0.7)
  else
    ({ p with final_fare := base_fare }, base_fare)

/-- The pure fare function the spec calls FareRule: the value returned by
Passenger.compute_fare for a passenger with the given distance and age. -/
def FareRule (distance_km : Rat) (age : Int) (rate : Rat) : Rat :=
  ((Passenger.init "" age distance_km).compute_fare rate).2

/-- Embeds class TransportFareCalculator (the spec calls it FareBatch):
a base rate and an ordered list of passengers. -/
structure TransportFareCalculator where
  base_rate_per_km : Rat
  passengers : List Passenger
deriving DecidableEq, Repr

/-- Embeds TransportFareCalculator.__init__(base_rate_per_km): empty list. -/
def TransportFareCalculator.init (base_rate_per_km : Rat) : TransportFareCalculator :=
  { base_rate_per_km := base_rate_per_km, passengers := [] }

/-- Embeds TransportFareCalculator.add_passenger: appends to the list. -/
def TransportFareCalculator.add_passenger (c : TransportFareCalculator)
    (p : Passenger) : TransportFareCalculator :=
  { c with passengers := c.passengers ++ [p] }

/-- Embeds TransportFareCalculator.process_all: calls compute_fare on every
stored passenger, in order, with the stored base rate. -/
def TransportFareCalculator.process_all (c : TransportFareCalculator) :
    TransportFareCalculator :=
  { c with passengers := c.passengers.map (fun p => (p.compute_fare c.base_rate_per_km).1) }

/-- Embeds TransportFareCalculator.total_collected: the sum of the
final_fare fields of all stored passengers. -/
def TransportFareCalculator.total_collected (c : TransportFareCalculator) : Rat :=
  (c.passengers.map Passenger.final_fare).sum

/-- The row data printed for each passenger by print_summary, in insertion
order: name, age, distance_km, final_fare. -/
def TransportFareCalculator.summary_view (c : TransportFareCalculator) :
    List (String × Int × Rat × Rat) :=
  c.passengers.map (fun p => (p.name, p.age, p.distance_km, p.final_fare))

/-- Embeds TransportFareCalculator.print_summary as a state transformer:
the method body only reads fields (it assigns to no attribute), so the
resulting state is the input state, paired with the projected rows it
renders. -/
def TransportFareCalculator.print_summary (c : TransportFareCalculator) :
    TransportFareCalculator × List (String × Int × Rat × Rat) :=
  (c, c.summary_view)

/-- Embeds the record-collection part of main(): starting from a fresh
calculator with the given rate, construct a Passenger from each input
triple (name, age, distance_km) and add it to the calculator. -/
def mkCalculator (rate : Rat) (inputs : List (String × Int × Rat)) :
    TransportFareCalculator :=
  inputs.foldl (fun c t => c.add_passenger (Passenger.init t.1 t.2.1 t.2.2))
    (TransportFareCalculator.init rate)

/-- C1: for every non-negative distance, non-negative age and positive rate,
the fare is base = rate * distance times 0.5 below age 12, times 0.7 above
age 60 and times 1 otherwise; ages 11, 12, 60 and 61 land in the stated
bands. -/
theorem fareRule_bands (d : Rat) (r : Rat) (hd : 0 ≤ d) (hr : 0 < r) :
    (∀ age : Int, age < 12 → FareRule d age r = 0.5 * r * d) ∧
    (∀ age : Int, 60 < age → FareRule d age r = 0.7 * r * d) ∧
    (∀ age : Int, 12 ≤ age → age ≤ 60 → FareRule d age r = r * d) ∧
    FareRule d 11 r = 0.5 * r * d ∧
    FareRule d 61 r = 0.7 * r * d ∧
    FareRule d 12 r = r * d ∧
    FareRule d 60 r = r * d := by
  refine ⟨?_, ?_, ?_, ?_, ?_, ?_, ?_⟩ <;>
    simp +contextual only [FareRule, Passenger.compute_fare, Passenger.init] <;>
    intros <;> split_ifs <;> first | ring1 | (exfalso; omega)

/-- Witness for C1 at d = 3, r = 2. -/
theorem fareRule_bands_witness :
    FareRule 3 11 2 = 0.5 * 2 * 3 ∧ FareRule 3 61 2 = 0.7 * 2 * 3 ∧
    FareRule 3 12 2 = 2 * 3 ∧ FareRule 3 60 2 = 2 * 3 := by
  have h := fareRule_bands 3 2 (by norm_num) (by norm_num)
  exact ⟨h.2.2.2.1, h.2.2.2.2.1, h.2.2.2.2.2.1, h.2.2.2.2.2.2⟩

/-- Helper: the passenger state after compute_fare is the input passenger
with only final_fare replaced by the FareRule value. -/
theorem Passenger.compute_fare_fst (p : Passenger) (r : Rat) :
    (p.compute_fare r).1 = { p with final_fare := FareRule p.distance_km p.age r } := by
  simp only [Passenger.compute_fare, FareRule, Passenger.init]
  split_ifs <;> rfl

/-- Helper: the value compute_fare returns is the FareRule value. -/
theorem Passenger.compute_fare_snd (p : Passenger) (r : Rat) :
    (p.compute_fare r).2 = FareRule p.distance_km p.age r := by
  simp only [Passenger.compute_fare, FareRule, Passenger.init]
  split_ifs <;> rfl

/-- Helper: the list built by mkCalculator is the pointwise construction
of a Passenger from each input triple. -/
theorem mkCalculator_passengers (rate : Rat) (inputs : List (String × Int × Rat)) :
    (mkCalculator rate inputs).passengers
      = inputs.map (fun t => Passenger.init t.1 t.2.1 t.2.2) := by
  suffices h : ∀ c : TransportFareCalculator,
      (inputs.foldl (fun c t => c.add_passenger (Passenger.init t.1 t.2.1 t.2.2)) c).passengers
        = c.passengers ++ inputs.map (fun t => Passenger.init t.1 t.2.1 t.2.2) by
    simpa [mkCalculator, TransportFareCalculator.init] using h (TransportFareCalculator.init rate)
  induction inputs with
  | nil => intro c; simp
  | cons t ts ih =>
      intro c
      rw [List.foldl_cons, ih]
      simp [TransportFareCalculator.add_passenger]

/-- C2: after process_all every stored record carries the FareRule value for
its own distance and age at the batch rate, total_collected is the sum of
the stored fares, and a batch freshly built from raw inputs (fares still at
their default 0) has total_collected 0 before any processing. -/
theorem processAll_fares_and_total (rate : Rat) (l : List Passenger)
    (inputs : List (String × Int × Rat)) :
    (∀ p ∈ (TransportFareCalculator.mk rate l).process_all.passengers,
        p.final_fare = FareRule p.distance_km p.age rate) ∧
    (TransportFareCalculator.mk rate l).process_all.total_collected
      = ((TransportFareCalculator.mk rate l).process_all.passengers.map
          Passenger.final_fare).sum ∧
    (mkCalculator rate inputs).total_collected = 0 := by
  refine ⟨?_, rfl, ?_⟩
  · intro p hp
    simp only [TransportFareCalculator.process_all, List.mem_map] at hp
    obtain ⟨q, hq, rfl⟩ := hp
    rw [Passenger.compute_fare_fst]
  · rw [TransportFareCalculator.total_collected, mkCalculator_passengers, List.map_map]
    apply List.sum_eq_zero
    intro x hx
    simp only [List.mem_map] at hx
    obtain ⟨t, ht, rfl⟩ := hx
    rfl

/-- Witness for C2 on a one-passenger batch and a one-triple input list. -/
theorem processAll_fares_and_total_witness :
    ((Passenger.init "ana" 10 20).compute_fare 500).1
        ∈ (TransportFareCalculator.mk 500 [Passenger.init "ana" 10 20]).process_all.passengers ∧
    ((Passenger.init "ana" 10 20).compute_fare 500).1.final_fare
      = FareRule ((Passenger.init "ana" 10 20).compute_fare 500).1.distance_km
          ((Passenger.init "ana" 10 20).compute_fare 500).1.age 500 ∧
    (mkCalculator 500 [("bob", 30, 15)]).total_collected = 0 := by
  have hm : ((Passenger.init "ana" 10 20).compute_fare 500).1
      ∈ (TransportFareCalculator.mk 500 [Passenger.init "ana" 10 20]).process_all.passengers := by
    simp [TransportFareCalculator.process_all]
  exact ⟨hm,
    (processAll_fares_and_total 500 [Passenger.init "ana" 10 20] [("bob", 30, 15)]).1 _ hm,
    (processAll_fares_and_total 500 [Passenger.init "ana" 10 20] [("bob", 30, 15)]).2.2⟩

/-- Helper: running compute_fare twice with the same rate gives the same
passenger state as running it once. -/
theorem Passenger.compute_fare_idem (p : Passenger) (r : Rat) :
    ((p.compute_fare r).1.compute_fare r).1 = (p.compute_fare r).1 := by
  rw [Passenger.compute_fare_fst, Passenger.compute_fare_fst]

/-- C3: process_all is idempotent: a second call with the same rate and
records leaves every fare field, and hence the total, identical. -/
theorem processAll_idempotent (c : TransportFareCalculator) :
    c.process_all.process_all.passengers.map Passenger.final_fare
      = c.process_all.passengers.map Passenger.final_fare ∧
    c.process_all.process_all.total_collected = c.process_all.total_collected := by
  have hstate : c.process_all.process_all = c.process_all := by
    simp only [TransportFareCalculator.process_all, List.map_map]
    refine congrArg _ (List.map_congr_left ?_)
    intro p hp
    exact Passenger.compute_fare_idem p c.base_rate_per_km
  exact ⟨by rw [hstate], by rw [hstate]⟩

/-- C4: for non-negative distance, non-negative age and positive rate the
fare is non-negative, and equal inputs give equal results. -/
theorem fareRule_nonneg_det (d : Rat) (a : Int) (r : Rat)
    (hd : 0 ≤ d) (ha : 0 ≤ a) (hr : 0 < r) :
    0 ≤ FareRule d a r ∧
    ∀ d2 a2 r2, d2 = d → a2 = a → r2 = r → FareRule d2 a2 r2 = FareRule d a r := by
  constructor
  · have hrd : 0 ≤ r * d := mul_nonneg hr.le hd
    simp only [FareRule, Passenger.compute_fare, Passenger.init]
    split_ifs <;> dsimp only <;> nlinarith
  · intro d2 a2 r2 h1 h2 h3
    rw [h1, h2, h3]

/-- Witness for C4 at d = 4, a = 30, r = 2. -/
theorem fareRule_nonneg_det_witness :
    0 ≤ FareRule 4 30 2 ∧ FareRule 4 30 2 = FareRule 4 30 2 := by
  have h := fareRule_nonneg_det 4 30 2 (by norm_num) (by norm_num) (by norm_num)
  exact ⟨h.1, h.2 4 30 2 rfl rfl rfl⟩

/-- C5: the end-to-end examples: with rate 500, age 10 over 20 km gives
5000, age 65 over 10 km gives 3500, age 30 over 15 km gives 7500, and the
batch of these three passengers totals 16000 after process_all. -/
theorem end_to_end_examples :
    FareRule 20 10 500 = 5000 ∧
    FareRule 10 65 500 = 3500 ∧
    FareRule 15 30 500 = 7500 ∧
    ((((TransportFareCalculator.init 500).add_passenger
          (Passenger.init "ana" 10 20)).add_passenger
          (Passenger.init "bob" 65 10)).add_passenger
          (Passenger.init "eva" 30 15)).process_all.total_collected = 16000 := by
  refine ⟨?_, ?_, ?_, ?_⟩ <;>
    simp [FareRule, Passenger.compute_fare, Passenger.init,
      TransportFareCalculator.init, TransportFareCalculator.add_passenger,
      TransportFareCalculator.process_all, TransportFareCalculator.total_collected] <;>
    norm_num

/-- C6: for fixed age and positive rate the fare is monotone non-decreasing
in the distance. -/
theorem fareRule_mono_distance (a : Int) (r d1 d2 : Rat)
    (hr : 0 < r) (hd1 : 0 ≤ d1) (h12 : d1 ≤ d2) :
    FareRule d1 a r ≤ FareRule d2 a r := by
  simp only [FareRule, Passenger.compute_fare, Passenger.init]
  split_ifs <;> dsimp only <;> nlinarith

/-- Witness for C6 at a = 30, r = 2, distances 1 and 5. -/
theorem fareRule_mono_distance_witness : FareRule 1 30 2 ≤ FareRule 5 30 2 :=
  fareRule_mono_distance 30 2 1 5 (by norm_num) (by norm_num) (by norm_num)

/-- C7: permuting the record list does not change total_collected after
processing. -/
theorem total_collected_perm (rate : Rat) (l1 l2 : List Passenger)
    (h : l1.Perm l2) :
    (TransportFareCalculator.mk rate l1).process_all.total_collected
      = (TransportFareCalculator.mk rate l2).process_all.total_collected := by
  simp only [TransportFareCalculator.process_all, TransportFareCalculator.total_collected,
    List.map_map]
  exact (h.map _).sum_eq

/-- Witness for C7: swapping a two-passenger batch keeps the total. -/
theorem total_collected_perm_witness :
    (TransportFareCalculator.mk 500
        [Passenger.init "ana" 10 20, Passenger.init "bob" 65 10]).process_all.total_collected
      = (TransportFareCalculator.mk 500
        [Passenger.init "bob" 65 10, Passenger.init "ana" 10 20]).process_all.total_collected :=
  total_collected_perm 500 _ _
    (List.Perm.swap (Passenger.init "bob" 65 10) (Passenger.init "ana" 10 20) [])

/-- C8: print_summary is a read-only projection: the state it leaves behind
is the input state (rate, records and all their fields unchanged), and the
rows it renders are name, age, distance_km, fare in insertion order. -/
theorem print_summary_readonly (c : TransportFareCalculator) :
    (c.print_summary).1 = c ∧
    (c.print_summary).2
      = c.passengers.map (fun p => (p.name, p.age, p.distance_km, p.final_fare)) :=
  ⟨rfl, rfl⟩

/-- C9: compute_fare returns exactly the value it stores in final_fare, and
leaves name, age and distance_km unchanged. -/
theorem compute_fare_returns_stored (p : Passenger) (r : Rat) :
    (p.compute_fare r).2 = (p.compute_fare r).1.final_fare ∧
    (p.compute_fare r).1.name = p.name ∧
    (p.compute_fare r).1.age = p.age ∧
    (p.compute_fare r).1.distance_km = p.distance_km := by
  rw [Passenger.compute_fare_fst, Passenger.compute_fare_snd]
  exact ⟨rfl, rfl, rfl, rfl⟩

/-- C10: the core checks nothing and never fails: the embedding of
compute_fare and process_all is total (process_all always produces one
processed record per stored record, each holding a FareRule value), and a
negative distance with a positive rate silently yields a negative fare. -/
theorem core_total_no_checks (d : Rat) (a : Int) (r : Rat) (rate : Rat)
    (l : List Passenger) (hd : d < 0) (hr : 0 < r) :
    FareRule d a r < 0 ∧
    (TransportFareCalculator.mk rate l).process_all.passengers.length = l.length ∧
    ∀ p ∈ (TransportFareCalculator.mk rate l).process_all.passengers,
      p.final_fare = FareRule p.distance_km p.age rate := by
  refine ⟨?_, ?_, ?_⟩
  · have hrd : r * d < 0 := mul_neg_of_pos_of_neg hr hd
    simp only [FareRule, Passenger.compute_fare, Passenger.init]
    split_ifs <;> dsimp only <;> nlinarith
  · simp [TransportFareCalculator.process_all]
  · intro p hp
    simp only [TransportFareCalculator.process_all, List.mem_map] at hp
    obtain ⟨q, hq, rfl⟩ := hp
    rw [Passenger.compute_fare_fst]

/-- Witness for C10 at d = -3, a = 30, r = 500, on a one-record batch. -/
theorem core_total_no_checks_witness :
    FareRule (-3) 30 500 < 0 ∧
    (TransportFareCalculator.mk 500
      [Passenger.init "ana" 30 (-3)]).process_all.passengers.length = 1 := by
  have h := core_total_no_checks (-3) 30 500 500 [Passenger.init "ana" 30 (-3)]
    (by norm_num) (by norm_num)
  exact ⟨h.1, h.2.1⟩
